import Mathlib

/-
Verification of the coros_data_extractor activity-extraction pipeline.

The definitions below are a shallow embedding of the Python sources:
  - coros_data_extractor/model.py          (pydantic data model)
  - coros_data_extractor/data/__init__.py  (extractor: listing, detail fetch,
                                            translation, pipeline, export)
  - coros_data_extractor/data/api_model.py (sport / file-type taxonomy)
  - coros_data_extractor/data.py           (legacy module)

JSON payloads are modelled by an inductive `Json` type; Python dicts by
association lists; Python exceptions by explicit error values (`PyError`);
HTTP interactions by explicit request/response traces against a server model.
-/

set_option autoImplicit false

namespace Coros

/-- JSON values as produced by `resp.json()`.  Numbers are modelled as exact
rationals (Python floats and ints both map to `num`). -/
inductive Json where
  | null : Json
  | bool (b : Bool) : Json
  | num (q : ℚ) : Json
  | str (s : String) : Json
  | arr (elems : List Json) : Json
  | obj (fields : List (String × Json)) : Json

/-- A Python dict holding JSON values, as an association list. -/
abbrev JsonDict := List (String × Json)

/-- Python `d.get(k)`: the first binding of key `k`, if any. -/
def dictGet (d : JsonDict) (k : String) : Option Json :=
  (d.find? (fun p => p.1 == k)).map (fun p => p.2)

/-- Python `d.get(k, dflt)`. -/
def dictGetD (d : JsonDict) (k : String) (dflt : Json) : Json :=
  (dictGet d k).getD dflt

/-- Python exceptions that matter to the control flow of the extractor. -/
inductive PyError where
  /-- `KeyError`: subscripting a dict with a missing key. -/
  | keyError : PyError
  /-- `pydantic.ValidationError` (a `ValueError`): model validation failed. -/
  | validationError : PyError
  /-- `TypeError` / `AttributeError`: operation on a value of the wrong shape. -/
  | typeError : PyError
  deriving DecidableEq

/-- Python `x == n` for a JSON value against an int (int/float compare by
numeric value, `True`/`False` compare as 1/0, other types are never equal). -/
def jsonEqInt (j : Json) (n : Int) : Bool :=
  match j with
  | Json.num q => q == (n : ℚ)
  | Json.bool b => (if b then (1 : Int) else 0) == n
  | _ => false

/-! ## Timestamps (model.py)

`Summary.convert_timestamp_to_datetime` computes
`(datetime.fromtimestamp(0, UTC) + timedelta(seconds=value / 100)).astimezone()`:
the instant `value / 100` seconds after the Unix epoch, rendered in the
system-local timezone.  `serialize_dt` renders it with `dt.isoformat()`.
An aware datetime is modelled as the instant it denotes (exact rational
seconds since the Unix epoch) together with its display offset; an ISO-8601
rendering is modelled as the wall-clock reading plus the rendered offset. -/

/-- A timezone-aware datetime: the denoted instant (seconds since the Unix
epoch, UTC) plus the display offset in minutes. -/
structure AwareDatetime where
  instantSeconds : ℚ
  offsetMinutes : ℤ
  deriving DecidableEq

/-- model.py `convert_timestamp_to_datetime`: decode a vendor timestamp
(`value` in centiseconds since the Unix epoch) to an aware datetime.
`fromtimestamp(0, UTC) + timedelta(seconds=value / 100)` denotes the instant
`value / 100`; `.astimezone()` re-renders it in the system-local zone
(display offset `localOffsetMinutes`) without changing the instant. -/
def convert_timestamp_to_datetime (localOffsetMinutes : ℤ) (value : ℚ) : AwareDatetime :=
  { instantSeconds := value / 100, offsetMinutes := localOffsetMinutes }

/-- An ISO-8601 rendering of an aware datetime: the wall-clock reading
(seconds since the epoch of the local calendar line) and the offset suffix. -/
structure IsoRendering where
  wallSeconds : ℚ
  offsetMinutes : ℤ
  deriving DecidableEq

/-- model.py `serialize_dt`: `dt.isoformat()` renders the local wall-clock
fields (instant shifted by the display offset) followed by the offset. -/
def serialize_dt (dt : AwareDatetime) : IsoRendering :=
  { wallSeconds := dt.instantSeconds + dt.offsetMinutes * 60
    offsetMinutes := dt.offsetMinutes }

/-- The instant an ISO-8601 rendering denotes: wall-clock reading minus the
rendered offset. -/
def isoInstant (r : IsoRendering) : ℚ :=
  r.wallSeconds - r.offsetMinutes * 60

/-! ## Sample series (get_activity_data) -/

/-- model.py `Frequencies`: five parallel time-series sequences. -/
structure Frequencies where
  cadence : List Json
  distance : List Json
  heart : List Json
  heartLevel : List Json
  timestamp : List Json

/-- data/__init__.py `CorosDataExtractor.get_activity_data`: one append per
field per input item, with `item.get(field, 0)` defaulting to 0. -/
def get_activity_data : List JsonDict → Frequencies
  | [] => ⟨[], [], [], [], []⟩
  | item :: rest =>
    let freq := get_activity_data rest
    { cadence := dictGetD item "cadence" (Json.num 0) :: freq.cadence
      distance := dictGetD item "distance" (Json.num 0) :: freq.distance
      heart := dictGetD item "heart" (Json.num 0) :: freq.heart
      heartLevel := dictGetD item "heartLevel" (Json.num 0) :: freq.heartLevel
      timestamp := dictGetD item "timestamp" (Json.num 0) :: freq.timestamp }

/-- C6: for every non-negative integer of vendor centiseconds since the epoch,
decoding it (divide by 100 seconds from the Unix epoch in UTC, then render in
the system-local zone, modelled by an arbitrary display offset `tz`) and
re-encoding via ISO-8601 serialization denotes the same instant, namely
`v / 100` seconds after the epoch; two renderings at different display
offsets denote the same instant, so they differ at most in timezone display. -/
theorem decode_encode_roundtrips_instant (tz tz2 : ℤ) (v : ℕ) :
    isoInstant (serialize_dt (convert_timestamp_to_datetime tz (v : ℚ)))
        = (convert_timestamp_to_datetime tz (v : ℚ)).instantSeconds
      ∧ (convert_timestamp_to_datetime tz (v : ℚ)).instantSeconds = (v : ℚ) / 100
      ∧ isoInstant (serialize_dt (convert_timestamp_to_datetime tz (v : ℚ)))
        = isoInstant (serialize_dt (convert_timestamp_to_datetime tz2 (v : ℚ))) := by
  refine ⟨?_, rfl, ?_⟩ <;>
    simp [isoInstant, serialize_dt, convert_timestamp_to_datetime]

/-- C7: `get_activity_data` (toSampleSeries) never fails (it is a total
function); each of the five fields is looked up per item with default 0, so a
missing field contributes 0, and all five output sequences have length equal
to the number of input items. -/
theorem get_activity_data_total_parallel (data : List JsonDict) :
    (get_activity_data data).cadence
        = data.map (fun item => dictGetD item "cadence" (Json.num 0))
      ∧ (get_activity_data data).distance
        = data.map (fun item => dictGetD item "distance" (Json.num 0))
      ∧ (get_activity_data data).heart
        = data.map (fun item => dictGetD item "heart" (Json.num 0))
      ∧ (get_activity_data data).heartLevel
        = data.map (fun item => dictGetD item "heartLevel" (Json.num 0))
      ∧ (get_activity_data data).timestamp
        = data.map (fun item => dictGetD item "timestamp" (Json.num 0))
      ∧ (get_activity_data data).cadence.length = data.length
      ∧ (get_activity_data data).distance.length = data.length
      ∧ (get_activity_data data).heart.length = data.length
      ∧ (get_activity_data data).heartLevel.length = data.length
      ∧ (get_activity_data data).timestamp.length = data.length := by
  induction data with
  | nil => simp [get_activity_data]
  | cons item rest ih =>
    obtain ⟨h1, h2, h3, h4, h5, l1, l2, l3, l4, l5⟩ := ih
    simp [get_activity_data, h1, h2, h3, h4, h5, l1, l2, l3, l4, l5]

/-! ## Activity lister (_get_activities_inner)

The listing endpoint is modelled by an honest paging server: it holds a list
of activity items, reports `data.count` as that list's length, and answers a
page request of a given `pageNumber` and `size` with the corresponding slice
of the list in order, as `data.dataList`.  The embedding returns the full
sequence of page requests issued (probe included) together with the
accumulated `datalist`. -/

/-- The listing server: the ordered activity items it can serve. -/
structure ListingServer (α : Type) where
  items : List α

/-- The `data.dataList` slice the server returns for one page request. -/
def serverPage {α : Type} (s : ListingServer α) (pageNumber size : ℕ) : List α :=
  (s.items.drop ((pageNumber - 1) * size)).take size

/-- One GET against the listing endpoint: the query parameters it carries. -/
structure PageRequest where
  modeList : String
  pageNumber : ℕ
  size : ℕ
  deriving DecidableEq

/-- Serialization of the `activity_types` filter: `""` for `None`, else the
comma-joined numeric codes. -/
def modeListString (activity_types : Option (List Int)) : String :=
  match activity_types with
  | none => ""
  | some ts => String.intercalate "," (ts.map toString)

/-- Python `math.ceil(a / b)` for non-negative integers. -/
def ceilDiv (a b : ℕ) : ℕ := (a + b - 1) / b

/-- The page requests `pageNumber = 1 .. numPages`, all of size `size` and
filter `modeList`. -/
def pageRequests (modeList : String) (numPages size : ℕ) : List PageRequest :=
  (List.range numPages).map (fun i => ⟨modeList, i + 1, size⟩)

/-- The concatenation of the server's pages `1 .. numPages` of size `size`,
in server-returned order, with no de-duplication. -/
def collectPages {α : Type} (s : ListingServer α) (numPages size : ℕ) : List α :=
  ((List.range numPages).map (fun i => serverPage s (i + 1) size)).flatten

/-- Modelled from the spec: `DEFAULT_ACTIVITY_QUERY_LIMIT` lives in
data/constants.py, which is not under src/.  Spec 4.2 prescribes that a run
with `limit` omitted probes for the total count, so the default query limit
is `None`. -/
def DEFAULT_ACTIVITY_QUERY_LIMIT : Option ℕ := none

/-- data/__init__.py `CorosDataExtractor._get_activities_inner`.  A `none`
`limit` falls back to the extractor's default; if the limit is still `none`
a probe request of size 1 learns `data.count` and the pagination limit
becomes the page size ceiling; otherwise the given limit serves as both the
total and the page-size input.  Page count is `ceil(total / limit)`, pages
are requested in order and their `dataList`s concatenated.  Returns the
requests issued and the accumulated items.  (`ACTIVITY_PAGINATION_LIMIT`
lives in data/constants.py, not under src/, and is a parameter here.) -/
def _get_activities_inner {α : Type} (defaultLimit : Option ℕ) (paginationLimit : ℕ)
    (server : ListingServer α) (activity_types : Option (List Int)) (limit : Option ℕ) :
    List PageRequest × List α :=
  let mode_list := modeListString activity_types
  match (match limit with | none => defaultLimit | some l => some l) with
  | none =>
    let probe : PageRequest := ⟨mode_list, 1, 1⟩
    let total_activities := server.items.length
    let lim := paginationLimit
    let size := min lim paginationLimit
    let num_pages := ceilDiv total_activities lim
    (probe :: pageRequests mode_list num_pages size, collectPages server num_pages size)
  | some lim =>
    let total_activities := lim
    let size := min lim paginationLimit
    let num_pages := ceilDiv total_activities lim
    (pageRequests mode_list num_pages size, collectPages server num_pages size)

/-- Splitting a list into `n` consecutive chunks of size `k` and flattening
them recovers the list, provided `n` chunks suffice to cover it. -/
theorem flatten_chunks {α : Type} (k : ℕ) :
    ∀ (n : ℕ) (l : List α), l.length ≤ n * k →
      ((List.range n).map (fun i => (l.drop (i * k)).take k)).flatten = l := by
  intro n
  induction n with
  | zero =>
    intro l h
    simp only [Nat.zero_mul, Nat.le_zero, List.length_eq_zero] at h
    simp [h]
  | succ n ih =>
    intro l h
    rw [List.range_succ_eq_map]
    simp only [List.map_cons, List.map_map, List.flatten_cons, Nat.zero_mul,
      List.drop_zero]
    have hshift : (fun i => (l.drop (i * k)).take k) ∘ Nat.succ
        = fun i => ((l.drop k).drop (i * k)).take k := by
      funext i
      simp only [Function.comp_apply, List.drop_drop]
      congr 2
      rw [Nat.succ_eq_add_one]
      ring
    have hlen : (l.drop k).length ≤ n * k := by
      have hexp : (n + 1) * k = n * k + k := by ring
      rw [hexp] at h
      simp only [List.length_drop]
      omega
    rw [hshift, ih (l.drop k) hlen]
    exact List.take_append_drop k l

/-- C2: listing with `limit` omitted against a server holding 205 items and a
pagination page-size ceiling of 100 first issues a probe request of page size
1, then exactly `ceil(205 / 100) = 3` page requests of size 100 carrying the
same filter, and returns the 205 items concatenated in server-returned order
with no de-duplication. -/
theorem listing_205_pages_3 {α : Type} (activity_types : Option (List Int))
    (server : ListingServer α) (h : server.items.length = 205) :
    _get_activities_inner DEFAULT_ACTIVITY_QUERY_LIMIT 100 server activity_types none
      = (⟨modeListString activity_types, 1, 1⟩ ::
          [⟨modeListString activity_types, 1, 100⟩,
           ⟨modeListString activity_types, 2, 100⟩,
           ⟨modeListString activity_types, 3, 100⟩],
         server.items) := by
  have hpages : ceilDiv server.items.length 100 = 3 := by
    rw [h]
    rfl
  have hcollect : collectPages server 3 100 = server.items := by
    unfold collectPages serverPage
    have := flatten_chunks (α := α) 100 3 server.items (by omega)
    simpa using this
  simp only [_get_activities_inner, DEFAULT_ACTIVITY_QUERY_LIMIT, hpages, hcollect,
    Nat.min_self]
  rfl

/-- C9: listing with an explicit integer `limit ≥ 1` issues exactly one page
request (page count `ceil(limit / limit) = 1`) of page size
`min(limit, paginationLimit)`, so at most `min(limit, paginationLimit)`
activities are requested even when `limit` exceeds the pagination limit; the
result is that single page. -/
theorem listing_explicit_limit_single_page {α : Type} (defaultLimit : Option ℕ)
    (paginationLimit : ℕ) (server : ListingServer α)
    (activity_types : Option (List Int)) (limit : ℕ) (h : 1 ≤ limit) :
    _get_activities_inner defaultLimit paginationLimit server activity_types (some limit)
      = ([⟨modeListString activity_types, 1, min limit paginationLimit⟩],
         serverPage server 1 (min limit paginationLimit)) := by
  have hone : ceilDiv limit limit = 1 := by
    unfold ceilDiv
    refine Nat.div_eq_of_lt_le (by omega) (by omega)
  have hreq : pageRequests (modeListString activity_types) 1 (min limit paginationLimit)
      = [⟨modeListString activity_types, 1, min limit paginationLimit⟩] := by
    simp [pageRequests, List.range_succ]
  have hcoll : collectPages server 1 (min limit paginationLimit)
      = serverPage server 1 (min limit paginationLimit) := by
    simp [collectPages, List.range_succ]
  simp only [_get_activities_inner, hone, hreq, hcoll]

/-- Witness for C2 at a concrete 205-item server. -/
theorem listing_205_pages_3_witness :
    _get_activities_inner DEFAULT_ACTIVITY_QUERY_LIMIT 100
        (ListingServer.mk (List.range 205)) none none
      = (⟨"", 1, 1⟩ :: [⟨"", 1, 100⟩, ⟨"", 2, 100⟩, ⟨"", 3, 100⟩], List.range 205) :=
  listing_205_pages_3 none (ListingServer.mk (List.range 205)) (by simp)

/-- Witness for C9 at `limit = 250` against a pagination limit of 100. -/
theorem listing_explicit_limit_single_page_witness :
    _get_activities_inner none 100 (ListingServer.mk (List.range 205)) none (some 250)
      = ([⟨"", 1, 100⟩], serverPage (ListingServer.mk (List.range 205)) 1 100) :=
  listing_explicit_limit_single_page none 100 (ListingServer.mk (List.range 205))
    none 250 (by omega)

/-! ## Taxonomy (data/api_model.py) -/

/-- api_model.py `ActivityFileType` (an `IntEnum`). -/
inductive ActivityFileType where
  | CSV : ActivityFileType
  | GPX : ActivityFileType
  | KML : ActivityFileType
  | TCX : ActivityFileType
  | FIT : ActivityFileType
  deriving DecidableEq

/-- The numeric value of each `ActivityFileType` member. -/
def ActivityFileType.val : ActivityFileType → Int
  | .CSV => 0
  | .GPX => 1
  | .KML => 2
  | .TCX => 3
  | .FIT => 4

/-- api_model.py `ActivityFileType.POSITIONAL_DATA_FILE_TYPE`: the tuple
`(GPX, KML)` of raw values (a nonmember, so a tuple of plain ints). -/
def POSITIONAL_DATA_FILE_TYPE : List Int := [1, 2]

/-- api_model.py `ActivityType` (an `IntEnum`).  Member names follow the
source, except that the member the source calls GYM with CARDIO (value 400)
is rendered `GymCardio` here. -/
inductive ActivityType where
  | OUTDOOR_RUN | INDOOR_RUN | HIKE | ROAD_BIKE | INDOOR_BIKE | MOUNTAIN_BIKE
  | GymCardio | SKI | SNOWBOARD | SKI_TOURING | INDOOR_CLIMB | BOULDERING
  | OUTDOOR_CLIMB | WALK | JUMP_ROPE | ELLIPTICAL | YOGA | MULTISPORT
  deriving DecidableEq

/-- The numeric value of each `ActivityType` member. -/
def ActivityType.val : ActivityType → Int
  | .OUTDOOR_RUN => 100
  | .INDOOR_RUN => 101
  | .HIKE => 104
  | .ROAD_BIKE => 200
  | .INDOOR_BIKE => 201
  | .MOUNTAIN_BIKE => 204
  | .GymCardio => 400
  | .SKI => 500
  | .SNOWBOARD => 501
  | .SKI_TOURING => 503
  | .INDOOR_CLIMB => 800
  | .BOULDERING => 801
  | .OUTDOOR_CLIMB => 802
  | .WALK => 900
  | .JUMP_ROPE => 901
  | .ELLIPTICAL => 903
  | .YOGA => 904
  | .MULTISPORT => 10001

/-- Python `ActivityType(raw)`: the member with value `raw`, when one exists
(the constructor raises `ValueError` otherwise, modelled by `none`). -/
def ActivityType.fromVal (raw : Int) : Option ActivityType :=
  if raw = 100 then some .OUTDOOR_RUN
  else if raw = 101 then some .INDOOR_RUN
  else if raw = 104 then some .HIKE
  else if raw = 200 then some .ROAD_BIKE
  else if raw = 201 then some .INDOOR_BIKE
  else if raw = 204 then some .MOUNTAIN_BIKE
  else if raw = 400 then some .GymCardio
  else if raw = 500 then some .SKI
  else if raw = 501 then some .SNOWBOARD
  else if raw = 503 then some .SKI_TOURING
  else if raw = 800 then some .INDOOR_CLIMB
  else if raw = 801 then some .BOULDERING
  else if raw = 802 then some .OUTDOOR_CLIMB
  else if raw = 900 then some .WALK
  else if raw = 901 then some .JUMP_ROPE
  else if raw = 903 then some .ELLIPTICAL
  else if raw = 904 then some .YOGA
  else if raw = 10001 then some .MULTISPORT
  else none

/-- api_model.py `ActivityType.ACTIVITY_TYPE_SUPPORTS_POSITIONAL_DATA`:
`{OUTDOOR_RUN, HIKE, WALK, MULTISPORT} | OUTDOOR_CLIMB_ACTIVITY_TYPES
| OUTDOOR_SNOWSPORT_ACTIVITY_TYPES | OUTDOOR_BIKE_ACTIVITY_TYPES`
as raw values. -/
def ACTIVITY_TYPE_SUPPORTS_POSITIONAL_DATA : List Int :=
  [100, 104, 900, 10001, 802, 801, 500, 503, 501, 200, 204]

/-- api_model.py `ActivityType.supports_export`: positional file types
(GPX/KML) require a position-recording sport type; every other file type is
allowed for every sport type. -/
def ActivityType.supports_export (self : ActivityType) (file_type : ActivityFileType) :
    Bool :=
  if POSITIONAL_DATA_FILE_TYPE.contains file_type.val then
    ACTIVITY_TYPE_SUPPORTS_POSITIONAL_DATA.contains self.val
  else true

/-- api_model.py `LapType` (an `IntEnum`). -/
inductive LapType where
  | BIKE_RIDE : LapType
  | RUNNING : LapType
  deriving DecidableEq

/-- The numeric value of each `LapType` member. -/
def LapType.val : LapType → Int
  | .BIKE_RIDE => 1
  | .RUNNING => 2

/-! ## Laps (model.py `Lap`, data/__init__.py `get_laps_data`) -/

/-- model.py `Lap`: per-lap aggregates with converted timestamps. -/
structure Lap where
  avgCadence : Int
  avgHr : Int
  avgMoveSpeed : Int
  avgPace : ℚ
  avgPower : Int
  avgSpeedV2 : ℚ
  avgStrideLength : Int
  calories : Int
  distance : Int
  endTimestamp : AwareDatetime
  lapIndex : Int
  rowIndex : Int
  setIndex : Int
  startTimestamp : AwareDatetime
  totalDistance : Int
  deriving DecidableEq

/-- Pydantic validation of an `int` field value: ints pass, integral floats
coerce, everything else is a `ValidationError`. -/
def pyInt (j : Json) : Except PyError Int :=
  match j with
  | Json.num q => if q.den = 1 then Except.ok q.num else Except.error PyError.validationError
  | _ => Except.error PyError.validationError

/-- Pydantic validation of a `float` field value: ints and floats pass. -/
def pyFloat (j : Json) : Except PyError ℚ :=
  match j with
  | Json.num q => Except.ok q
  | _ => Except.error PyError.validationError

/-- Pydantic validation of a `str` field value. -/
def pyStr (j : Json) : Except PyError String :=
  match j with
  | Json.str s => Except.ok s
  | _ => Except.error PyError.validationError

/-- Pydantic validation of a timestamp field: the `mode="before"` validator
computes `value / 100` (numbers and booleans divide; other values raise in
the validator). -/
def pyTimestamp (localOffsetMinutes : ℤ) (j : Json) : Except PyError AwareDatetime :=
  match j with
  | Json.num q => Except.ok (convert_timestamp_to_datetime localOffsetMinutes q)
  | Json.bool b =>
    Except.ok (convert_timestamp_to_datetime localOffsetMinutes (if b then 1 else 0))
  | _ => Except.error PyError.typeError

/-- Pydantic lookup of a required field: a missing field is a
`ValidationError`. -/
def reqField (d : JsonDict) (k : String) : Except PyError Json :=
  match dictGet d k with
  | some j => Except.ok j
  | none => Except.error PyError.validationError

/-- Python `Lap(**lap)`: pydantic validation of one lap record (`**` requires
a dict; a missing or ill-typed field is a `ValidationError`). -/
def lapFromJson (localOffsetMinutes : ℤ) (lap : Json) : Except PyError Lap :=
  match lap with
  | Json.obj d => do
    let avgCadence ← pyInt (← reqField d "avgCadence")
    let avgHr ← pyInt (← reqField d "avgHr")
    let avgMoveSpeed ← pyInt (← reqField d "avgMoveSpeed")
    let avgPace ← pyFloat (← reqField d "avgPace")
    let avgPower ← pyInt (← reqField d "avgPower")
    let avgSpeedV2 ← pyFloat (← reqField d "avgSpeedV2")
    let avgStrideLength ← pyInt (← reqField d "avgStrideLength")
    let calories ← pyInt (← reqField d "calories")
    let distance ← pyInt (← reqField d "distance")
    let endTimestamp ← pyTimestamp localOffsetMinutes (← reqField d "endTimestamp")
    let lapIndex ← pyInt (← reqField d "lapIndex")
    let rowIndex ← pyInt (← reqField d "rowIndex")
    let setIndex ← pyInt (← reqField d "setIndex")
    let startTimestamp ← pyTimestamp localOffsetMinutes (← reqField d "startTimestamp")
    let totalDistance ← pyInt (← reqField d "totalDistance")
    Except.ok ⟨avgCadence, avgHr, avgMoveSpeed, avgPace, avgPower, avgSpeedV2,
      avgStrideLength, calories, distance, endTimestamp, lapIndex, rowIndex,
      setIndex, startTimestamp, totalDistance⟩
  | _ => Except.error PyError.typeError

/-- `Lap(**lap) for lap in item["lapItemList"]`, consumed by `laps.extend`:
each entry validated in order, first error propagating. -/
def lapsFromList (localOffsetMinutes : ℤ) : List Json → Except PyError (List Lap)
  | [] => Except.ok []
  | lap :: rest =>
    match lapFromJson localOffsetMinutes lap with
    | Except.error e => Except.error e
    | Except.ok l =>
      match lapsFromList localOffsetMinutes rest with
      | Except.error e => Except.error e
      | Except.ok ls => Except.ok (l :: ls)

/-- api_model.py `ActivityType.RUN_ACTIVITY_TYPES`: the nonmember tuple
`(INDOOR_RUN, OUTDOOR_RUN)` of raw values. -/
def RUN_ACTIVITY_TYPES : List Int := [101, 100]

/-- One iteration of the `get_laps_data` loop: `item["type"]` (a `KeyError`
when missing, a `TypeError` when `item` is not a dict) is compared against
`LapType.RUNNING` by numeric value (`LapType` is an `IntEnum`); on a match,
`item["lapItemList"]` is expanded into `Lap` records. -/
def lapsOfItem (localOffsetMinutes : ℤ) (item : Json) : Except PyError (List Lap) :=
  match item with
  | Json.obj d =>
    match dictGet d "type" with
    | none => Except.error PyError.keyError
    | some t =>
      if jsonEqInt t (LapType.RUNNING.val) then
        match dictGet d "lapItemList" with
        | none => Except.error PyError.keyError
        | some (Json.arr laps) => lapsFromList localOffsetMinutes laps
        | some _ => Except.error PyError.typeError
      else Except.ok []
  | _ => Except.error PyError.typeError

/-- The `get_laps_data` loop over the raw items, accumulating `laps` with
`extend` in order; the first error propagates. -/
def lapsOfItems (localOffsetMinutes : ℤ) : List Json → Except PyError (List Lap)
  | [] => Except.ok []
  | item :: rest =>
    match lapsOfItem localOffsetMinutes item with
    | Except.error e => Except.error e
    | Except.ok ls =>
      match lapsOfItems localOffsetMinutes rest with
      | Except.error e => Except.error e
      | Except.ok more => Except.ok (ls ++ more)

/-- data/__init__.py `CorosDataExtractor.get_laps_data`: return `[]` up front
unless `sport_type` is in `RUN_ACTIVITY_TYPES` (the pipeline passes the raw
numeric sport type; `IntEnum` membership compares by value), then expand the
running-tagged items. -/
def get_laps_data (localOffsetMinutes : ℤ) (sport_type : Int) (raw_lap_data : Json) :
    Except PyError (List Lap) :=
  if RUN_ACTIVITY_TYPES.contains sport_type then
    match raw_lap_data with
    | Json.arr items => lapsOfItems localOffsetMinutes items
    | _ => Except.error PyError.typeError
  else Except.ok []

/-- A raw lap item that is a dict whose `"type"` tag is present but is not
numerically equal to the running lap kind. -/
def nonRunningTagged (item : Json) : Prop :=
  ∃ d t, item = Json.obj d ∧ dictGet d "type" = some t
    ∧ jsonEqInt t (LapType.RUNNING.val) = false

/-- A raw lap item list whose every entry carries all 15 `Lap` fields. -/
def exampleLapJson : Json :=
  Json.obj [("avgCadence", Json.num 80), ("avgHr", Json.num 150),
    ("avgMoveSpeed", Json.num 3), ("avgPace", Json.num 5),
    ("avgPower", Json.num 200), ("avgSpeedV2", Json.num 3),
    ("avgStrideLength", Json.num 100), ("calories", Json.num 50),
    ("distance", Json.num 1000), ("endTimestamp", Json.num 169000000000),
    ("lapIndex", Json.num 1), ("rowIndex", Json.num 1), ("setIndex", Json.num 1),
    ("startTimestamp", Json.num 168999990000), ("totalDistance", Json.num 1000)]

/-- C5 counterexample: `ROAD_BIKE` (value 200) is a biking variant, yet
`get_laps_data` returns the empty lap list for it even on a well-formed,
running-tagged raw lap payload holding one complete lap record.  The claim
places the biking variants inside the lap-supporting set, under which this
input would expand into one `Lap` record; the code's gate
`RUN_ACTIVITY_TYPES = (INDOOR_RUN, OUTDOOR_RUN)` contains no biking
variant. -/
theorem laps_empty_for_road_bike_counterexample :
    get_laps_data 0 (ActivityType.ROAD_BIKE.val)
        (Json.arr [Json.obj [("type", Json.num 2),
          ("lapItemList", Json.arr [exampleLapJson])]])
      = Except.ok ([] : List Lap)
      ∧ lapsOfItem 0 (Json.obj [("type", Json.num 2),
          ("lapItemList", Json.arr [exampleLapJson])])
        ≠ Except.ok ([] : List Lap) := by
  constructor
  · rfl
  · intro hcontra
    have hlen : (lapsOfItem 0 (Json.obj [("type", Json.num 2),
        ("lapItemList", Json.arr [exampleLapJson])])).map List.length
        = Except.ok 1 := by rfl
    rw [hcontra] at hlen
    simp [Except.map] at hlen

/-- C5 (amended): the lap-supporting set comprises only the running variants
(`INDOOR_RUN`, `OUTDOOR_RUN`), not the biking variants; for every sport type
outside that set `get_laps_data` returns the empty sequence regardless of the
shape of the raw lap input, and within the set every item whose lap-kind tag
is not the running kind contributes no `Lap` records. -/
theorem laps_only_for_run_types (localOffsetMinutes : ℤ) (sport_type : Int) :
    (RUN_ACTIVITY_TYPES.contains sport_type = false →
      ∀ raw_lap_data, get_laps_data localOffsetMinutes sport_type raw_lap_data
        = Except.ok [])
    ∧ (RUN_ACTIVITY_TYPES = [ActivityType.INDOOR_RUN.val, ActivityType.OUTDOOR_RUN.val]
        ∧ ActivityType.ROAD_BIKE.val ∉ RUN_ACTIVITY_TYPES
        ∧ ActivityType.INDOOR_BIKE.val ∉ RUN_ACTIVITY_TYPES
        ∧ ActivityType.MOUNTAIN_BIKE.val ∉ RUN_ACTIVITY_TYPES)
    ∧ (RUN_ACTIVITY_TYPES.contains sport_type = true →
      ∀ items, (∀ item ∈ items, nonRunningTagged item) →
        get_laps_data localOffsetMinutes sport_type (Json.arr items) = Except.ok []) := by
  refine ⟨?_, ⟨rfl, by decide, by decide, by decide⟩, ?_⟩
  · intro hout raw_lap_data
    simp only [get_laps_data, hout, Bool.false_eq_true, if_false]
  · intro hin items hitems
    have : ∀ its : List Json, (∀ item ∈ its, nonRunningTagged item) →
        lapsOfItems localOffsetMinutes its = Except.ok [] := by
      intro its
      induction its with
      | nil => intro _; rfl
      | cons item rest ih =>
        intro hall
        obtain ⟨d, t, hobj, hget, hne⟩ := hall item (by simp)
        have hrest := ih (fun x hx => hall x (by simp [hx]))
        simp [lapsOfItems, hobj, lapsOfItem, hget, hne, hrest, Except.bind]
    simp [get_laps_data, hin, this items hitems]

/-- Witness for C5 (amended), exercising both implications: a yoga activity
(not lap-supporting) with lap-shaped input yields no laps, and an outdoor run
whose single item is tagged with the biking lap kind also yields no laps. -/
theorem laps_only_for_run_types_witness :
    get_laps_data 0 (ActivityType.YOGA.val)
        (Json.arr [Json.obj [("type", Json.num 2),
          ("lapItemList", Json.arr [exampleLapJson])]])
      = Except.ok []
    ∧ get_laps_data 0 (ActivityType.OUTDOOR_RUN.val)
        (Json.arr [Json.obj [("type", Json.num 1),
          ("lapItemList", Json.arr [exampleLapJson])]])
      = Except.ok [] := by
  constructor
  · exact (laps_only_for_run_types 0 (ActivityType.YOGA.val)).1 (by decide) _
  · refine (laps_only_for_run_types 0 (ActivityType.OUTDOOR_RUN.val)).2.2 (by decide) _ ?_
    intro item hitem
    simp only [List.mem_singleton] at hitem
    exact ⟨_, Json.num 1, hitem, rfl, by decide⟩

/-! ## Legacy module (data.py)

data.py defines its own `LapType` as a plain `Enum` (not an `IntEnum`), so a
member compares unequal to every plain int (`Enum.__eq__` falls back to
identity).  The value a lap item's `"type"` key holds is modelled by a tag
that records whether it is a plain int (as the vendor API delivers) or an
enum member. -/

/-- A Python value sitting in a legacy lap item's `"type"` slot. -/
inductive LegacyTypeTag where
  | int (n : Int) : LegacyTypeTag
  | enumMember (t : LapType) : LegacyTypeTag
  deriving DecidableEq

/-- Python `==` on legacy type tags: ints compare by value, plain-`Enum`
members compare by identity, and an int never equals a plain-`Enum`
member. -/
def legacyTagEq (a b : LegacyTypeTag) : Bool :=
  match a, b with
  | .int m, .int n => m == n
  | .enumMember s, .enumMember t => s == t
  | _, _ => false

/-- A lap item of the legacy `get_laps_data` input list. -/
structure LegacyLapItem where
  type : LegacyTypeTag
  lapItemList : List JsonDict

/-- data.py `CorosDataExtractor.get_laps_data`: expand `item["lapItemList"]`
for every item whose `"type"` equals the plain-`Enum` member
`LapType.RUNNING` (the expansion is never reached for int-tagged items, so
`Lap(**lap)` validation is irrelevant there and the raw dicts stand in for
the would-be records). -/
def legacy_get_laps_data (data : List LegacyLapItem) : List JsonDict :=
  data.flatMap (fun item =>
    if legacyTagEq item.type (LegacyTypeTag.enumMember LapType.RUNNING) then
      item.lapItemList
    else [])

/-- C10: in the legacy module, for every input list whose items carry integer
`"type"` values (as the vendor API delivers them), `get_laps_data` returns
the empty list: an integer tag never equals the plain-`Enum` member
`LapType.RUNNING`, so no lap item is ever expanded. -/
theorem legacy_laps_always_empty_for_int_tags (data : List LegacyLapItem)
    (h : ∀ item ∈ data, ∃ n, item.type = LegacyTypeTag.int n) :
    legacy_get_laps_data data = [] := by
  induction data with
  | nil => rfl
  | cons item rest ih =>
    obtain ⟨n, hn⟩ := h item (by simp)
    have hrest := ih (fun x hx => h x (by simp [hx]))
    simp [legacy_get_laps_data, hn, legacyTagEq] at hrest ⊢
    exact hrest

/-- Witness for C10: one item tagged with the int 2 (the numeric value of the
running lap kind) and a nonempty lap list still yields no laps. -/
theorem legacy_laps_always_empty_for_int_tags_witness :
    legacy_get_laps_data [⟨LegacyTypeTag.int 2, [[("distance", Json.num 5)]]⟩] = [] :=
  legacy_laps_always_empty_for_int_tags _ (by
    intro item hitem
    simp only [List.mem_singleton] at hitem
    exact ⟨2, by rw [hitem]⟩)

/-! ## Activity detail fetcher (get_raw_activity_data)

One call to `_get_raw_activity_data_inner` either raises a transport
exception (`requests` exceptions, all caught by the retry loop's
`except Exception`) or yields a JSON payload; the behavior of the server
across attempts is modelled by a function from the attempt index to that
outcome.  The retry loop is traced: each attempt and each inter-attempt
sleep is recorded. -/

/-- data/__init__.py module constant `MAX_TRIES`. -/
def MAX_TRIES : ℕ := 3

/-- data/__init__.py module constant `WAIT_BETWEEN_RETRIES` (0.5 seconds). -/
def WAIT_BETWEEN_RETRIES : ℚ := 1 / 2

/-- Modelled from the spec: `ACTIVITY_DETAILS_URL` lives in
data/constants.py, which is not under src/; only its identity as the detail
endpoint matters here. -/
def ACTIVITY_DETAILS_URL : String := "ACTIVITY_DETAILS_URL"

/-- The outcome of one `_get_raw_activity_data_inner` call. -/
inductive AttemptOutcome where
  /-- The request raised (transport error, bad HTTP status, JSON decode). -/
  | exn : AttemptOutcome
  /-- The request returned this JSON payload. -/
  | payload (j : JsonDict) : AttemptOutcome

/-- One observable event of the retry loop. -/
inductive RetryEvent where
  /-- The detail request for attempt `i` (0-based) was issued. -/
  | attempt (i : ℕ) : RetryEvent
  /-- `time.sleep(d)` between attempts. -/
  | sleep (d : ℚ) : RetryEvent
  deriving DecidableEq

/-- How `get_raw_activity_data` ends. -/
inductive FetchResult where
  /-- A payload passed the validity check and was returned. -/
  | ok (j : JsonDict) : FetchResult
  /-- `RuntimeError(err_msg)` raised after the loop: the message names
  `ACTIVITY_DETAILS_URL` and the `MAX_TRIES` module constant. -/
  | runtimeError (endpoint : String) (attemptCount : ℕ) : FetchResult
  /-- An exception escaped the loop itself (the validity check crashing on a
  payload whose `"data"` value is not a dict). -/
  | uncaught (e : PyError) : FetchResult

/-- data/__init__.py `CorosDataExtractor.valid_raw_activity_data`:
`resp_json.get("data", {}).get("summary") is not None`.  `none` models the
`AttributeError` Python raises when the `"data"` value is present but not a
dict; otherwise the check is `true` exactly when a non-null `"summary"` key
exists. -/
def valid_raw_activity_data (resp_json : JsonDict) : Option Bool :=
  match dictGetD resp_json "data" (Json.obj []) with
  | Json.obj d =>
    match dictGet d "summary" with
    | none => some false
    | some Json.null => some false
    | some _ => some true
  | _ => none

/-- The retry loop of `get_raw_activity_data`: `retries_left` counts down
from `max_tries - 1` to 0 (here `fuel = retries_left + 1` iterations remain);
a transport exception or an invalid payload is logged and, when retries
remain, followed by a sleep; exhausting the loop raises `RuntimeError` naming
`ACTIVITY_DETAILS_URL` and `MAX_TRIES`. -/
def getRawActivityDataLoop (attempts : ℕ → AttemptOutcome) (attemptIdx : ℕ) :
    ℕ → List RetryEvent × FetchResult
  | 0 => ([], FetchResult.runtimeError ACTIVITY_DETAILS_URL MAX_TRIES)
  | fuel + 1 =>
    let retry : Unit → List RetryEvent × FetchResult := fun _ =>
      let sleeps := if fuel ≠ 0 then [RetryEvent.sleep WAIT_BETWEEN_RETRIES] else []
      let next := getRawActivityDataLoop attempts (attemptIdx + 1) fuel
      (RetryEvent.attempt attemptIdx :: sleeps ++ next.1, next.2)
    match attempts attemptIdx with
    | AttemptOutcome.exn => retry ()
    | AttemptOutcome.payload j =>
      match valid_raw_activity_data j with
      | some true => ([RetryEvent.attempt attemptIdx], FetchResult.ok j)
      | some false => retry ()
      | none => ([RetryEvent.attempt attemptIdx], FetchResult.uncaught PyError.typeError)

/-- data/__init__.py `CorosDataExtractor.get_raw_activity_data` with the
default `max_tries = MAX_TRIES`. -/
def get_raw_activity_data (attempts : ℕ → AttemptOutcome) (max_tries : ℕ := MAX_TRIES) :
    List RetryEvent × FetchResult :=
  getRawActivityDataLoop attempts 0 max_tries

/-- An attempt that fails the loop's success test: either the request raised
a transport exception, or it returned a payload failing the non-null
`data.summary` validity check. -/
def attemptFails (o : AttemptOutcome) : Prop :=
  o = AttemptOutcome.exn
    ∨ ∃ j, o = AttemptOutcome.payload j ∧ valid_raw_activity_data j = some false

/-- Unfolding one failing iteration of the retry loop. -/
theorem loop_step_fails (attempts : ℕ → AttemptOutcome) (i fuel : ℕ)
    (h : attemptFails (attempts i)) :
    getRawActivityDataLoop attempts i (fuel + 1)
      = (RetryEvent.attempt i ::
          (if fuel ≠ 0 then [RetryEvent.sleep WAIT_BETWEEN_RETRIES] else [])
            ++ (getRawActivityDataLoop attempts (i + 1) fuel).1,
         (getRawActivityDataLoop attempts (i + 1) fuel).2) := by
  rcases h with hexn | ⟨j, hj, hvalid⟩
  · simp [getRawActivityDataLoop, hexn]
  · simp [getRawActivityDataLoop, hj, hvalid]

/-- C4: a detail fetch whose first two attempts fail (transport exception or
the payload-validity check) but whose third attempt yields a payload with a
non-null `data.summary` returns that payload, after exactly the trace
attempt–sleep–attempt–sleep–attempt: no further attempt is performed (the
result does not depend on `attempts i` for `i ≥ 3`). -/
theorem fetch_succeeds_on_third_attempt (attempts : ℕ → AttemptOutcome) (j : JsonDict)
    (h0 : attemptFails (attempts 0)) (h1 : attemptFails (attempts 1))
    (h2 : attempts 2 = AttemptOutcome.payload j)
    (hvalid : valid_raw_activity_data j = some true) :
    get_raw_activity_data attempts
      = ([RetryEvent.attempt 0, RetryEvent.sleep WAIT_BETWEEN_RETRIES,
          RetryEvent.attempt 1, RetryEvent.sleep WAIT_BETWEEN_RETRIES,
          RetryEvent.attempt 2],
         FetchResult.ok j) := by
  have hstep2 : getRawActivityDataLoop attempts 2 1
      = ([RetryEvent.attempt 2], FetchResult.ok j) := by
    simp [getRawActivityDataLoop, h2, hvalid]
  rw [get_raw_activity_data, show MAX_TRIES = 2 + 1 from rfl,
    loop_step_fails attempts 0 2 h0]
  rw [show (2 : ℕ) = 1 + 1 from rfl, loop_step_fails attempts 1 1 h1, hstep2]
  simp

/-- Witness for C4: two transport failures then a valid payload. -/
theorem fetch_succeeds_on_third_attempt_witness :
    get_raw_activity_data (fun i => if i < 2 then AttemptOutcome.exn
        else AttemptOutcome.payload [("data", Json.obj [("summary", Json.obj [])])])
      = ([RetryEvent.attempt 0, RetryEvent.sleep WAIT_BETWEEN_RETRIES,
          RetryEvent.attempt 1, RetryEvent.sleep WAIT_BETWEEN_RETRIES,
          RetryEvent.attempt 2],
         FetchResult.ok [("data", Json.obj [("summary", Json.obj [])])]) :=
  fetch_succeeds_on_third_attempt _ _ (Or.inl rfl) (Or.inl rfl) rfl rfl

/-! ## Summary translation (model.py `Summary`, get_summary_data) -/

/-- model.py `Summary`: the activity summary record. -/
structure Summary where
  adjustedPace : Int
  aerobicEffect : ℚ
  aerobicEffectState : Int
  anaerobicEffect : ℚ
  anaerobicEffectState : Int
  avgCadence : Int
  avgHr : Int
  avgMoveSpeed : Int
  avgPace : Int
  avgRunningEf : Int
  avgSpeed : ℚ
  avgStepLen : Int
  calories : Int
  currentVo2Max : Int
  deviceSportMode : Int
  distance : Int
  endTimestamp : AwareDatetime
  maxCadence : Int
  maxHr : Int
  maxSpeed : Int
  name : String
  sportMode : Int
  sportType : Int
  startTimestamp : AwareDatetime
  totalTime : Int
  trainType : Int
  trainingLoad : Int
  workoutTime : Int

/-- data/__init__.py `CorosDataExtractor.get_summary_data`, i.e.
`Summary(**data)`: `**` requires a dict; every declared field must be present
and well-typed or pydantic raises `ValidationError`; extraneous fields are
ignored. -/
def get_summary_data (localOffsetMinutes : ℤ) (data : Json) : Except PyError Summary :=
  match data with
  | Json.obj d => do
    let adjustedPace ← pyInt (← reqField d "adjustedPace")
    let aerobicEffect ← pyFloat (← reqField d "aerobicEffect")
    let aerobicEffectState ← pyInt (← reqField d "aerobicEffectState")
    let anaerobicEffect ← pyFloat (← reqField d "anaerobicEffect")
    let anaerobicEffectState ← pyInt (← reqField d "anaerobicEffectState")
    let avgCadence ← pyInt (← reqField d "avgCadence")
    let avgHr ← pyInt (← reqField d "avgHr")
    let avgMoveSpeed ← pyInt (← reqField d "avgMoveSpeed")
    let avgPace ← pyInt (← reqField d "avgPace")
    let avgRunningEf ← pyInt (← reqField d "avgRunningEf")
    let avgSpeed ← pyFloat (← reqField d "avgSpeed")
    let avgStepLen ← pyInt (← reqField d "avgStepLen")
    let calories ← pyInt (← reqField d "calories")
    let currentVo2Max ← pyInt (← reqField d "currentVo2Max")
    let deviceSportMode ← pyInt (← reqField d "deviceSportMode")
    let distance ← pyInt (← reqField d "distance")
    let endTimestamp ← pyTimestamp localOffsetMinutes (← reqField d "endTimestamp")
    let maxCadence ← pyInt (← reqField d "maxCadence")
    let maxHr ← pyInt (← reqField d "maxHr")
    let maxSpeed ← pyInt (← reqField d "maxSpeed")
    let name ← pyStr (← reqField d "name")
    let sportMode ← pyInt (← reqField d "sportMode")
    let sportType ← pyInt (← reqField d "sportType")
    let startTimestamp ← pyTimestamp localOffsetMinutes (← reqField d "startTimestamp")
    let totalTime ← pyInt (← reqField d "totalTime")
    let trainType ← pyInt (← reqField d "trainType")
    let trainingLoad ← pyInt (← reqField d "trainingLoad")
    let workoutTime ← pyInt (← reqField d "workoutTime")
    Except.ok ⟨adjustedPace, aerobicEffect, aerobicEffectState, anaerobicEffect,
      anaerobicEffectState, avgCadence, avgHr, avgMoveSpeed, avgPace, avgRunningEf,
      avgSpeed, avgStepLen, calories, currentVo2Max, deviceSportMode, distance,
      endTimestamp, maxCadence, maxHr, maxSpeed, name, sportMode, sportType,
      startTimestamp, totalTime, trainType, trainingLoad, workoutTime⟩
  | _ => Except.error PyError.typeError

/-- The items of a JSON list, each required to be a dict (`item.get` on a
non-dict raises). -/
def asDicts : List Json → Except PyError (List JsonDict)
  | [] => Except.ok []
  | Json.obj d :: rest =>
    match asDicts rest with
    | Except.error e => Except.error e
    | Except.ok ds => Except.ok (d :: ds)
  | _ :: _ => Except.error PyError.typeError

/-- `get_activity_data` applied to `data_wrapped["frequencyList"]`: the value
must be a list of dicts (`item.get` on a non-dict raises). -/
def get_activity_data_json (data : Json) : Except PyError Frequencies :=
  match data with
  | Json.arr items =>
    match asDicts items with
    | Except.error e => Except.error e
    | Except.ok dicts => Except.ok (get_activity_data dicts)
  | _ => Except.error PyError.typeError

/-! ## Extraction pipeline (_extract_data_inner) -/

/-- model.py `TrainActivity`: one complete translated activity. -/
structure TrainActivity where
  summary : Summary
  data : Frequencies
  laps : List Lap

/-- The translation step of the pipeline loop body:
`data_wrapped = activity_data["data"]` (a `KeyError` when missing), then
`TrainActivity(summary=get_summary_data(data_wrapped["summary"]),
data=get_activity_data(data_wrapped["frequencyList"]),
laps=get_laps_data(sport_type, data_wrapped["lapList"]))`, with the arguments
evaluated in that order. -/
def build_train_activity (localOffsetMinutes : ℤ) (sport_type : Int)
    (activity_data : JsonDict) : Except PyError TrainActivity :=
  match dictGet activity_data "data" with
  | none => Except.error PyError.keyError
  | some (Json.obj data_wrapped) =>
    (match dictGet data_wrapped "summary" with
      | none => Except.error PyError.keyError
      | some sj =>
        match get_summary_data localOffsetMinutes sj with
        | Except.error e => Except.error e
        | Except.ok summary =>
          match dictGet data_wrapped "frequencyList" with
          | none => Except.error PyError.keyError
          | some fj =>
            match get_activity_data_json fj with
            | Except.error e => Except.error e
            | Except.ok freqs =>
              match dictGet data_wrapped "lapList" with
              | none => Except.error PyError.keyError
              | some lj =>
                match get_laps_data localOffsetMinutes sport_type lj with
                | Except.error e => Except.error e
                | Except.ok laps => Except.ok ⟨summary, freqs, laps⟩)
  | some _ => Except.error PyError.typeError

/-- One listed activity together with the behavior of the detail endpoint for
it across retry attempts. -/
structure ActivityEnv where
  sportType : Int
  attempts : ℕ → AttemptOutcome

/-- What the pipeline loop body does with one activity. -/
inductive ProcessResult where
  /-- An error was caught, logged, and the loop continued. -/
  | skip : ProcessResult
  /-- An uncaught exception propagates out of the run. -/
  | crash (e : PyError) : ProcessResult
  /-- The translated activity is appended to the collection. -/
  | keep (ta : TrainActivity) : ProcessResult

/-- The pipeline loop body for one activity: fetch the detail payload
(`except (requests.RequestException, RuntimeError)` catches the retry-
exhausted `RuntimeError` and skips), then build the models
(`except KeyError` catches only `KeyError` and skips; any other exception —
in particular pydantic's `ValidationError` — propagates). -/
def process_env (localOffsetMinutes : ℤ) (env : ActivityEnv) : ProcessResult :=
  match (get_raw_activity_data env.attempts).2 with
  | FetchResult.runtimeError _ _ => ProcessResult.skip
  | FetchResult.uncaught e => ProcessResult.crash e
  | FetchResult.ok j =>
    match build_train_activity localOffsetMinutes env.sportType j with
    | Except.error PyError.keyError => ProcessResult.skip
    | Except.error e => ProcessResult.crash e
    | Except.ok ta => ProcessResult.keep ta

/-- How a pipeline run ends. -/
inductive RunOutcome where
  /-- All references were processed; the collection in insertion order. -/
  | done (activities : List TrainActivity) : RunOutcome
  /-- An uncaught exception aborted the run. -/
  | crashed (e : PyError) : RunOutcome

/-- The pipeline loop over the listed activities, accumulating the collection
(`self.activities.add_activity`) in order. -/
def extract_data_go (localOffsetMinutes : ℤ) :
    List ActivityEnv → List TrainActivity → RunOutcome
  | [], acc => RunOutcome.done acc.reverse
  | env :: rest, acc =>
    match process_env localOffsetMinutes env with
    | ProcessResult.skip => extract_data_go localOffsetMinutes rest acc
    | ProcessResult.crash e => RunOutcome.crashed e
    | ProcessResult.keep ta => extract_data_go localOffsetMinutes rest (ta :: acc)

/-- data/__init__.py `CorosDataExtractor._extract_data_inner`, given the
successfully listed activity references (a listing failure aborts the run
before this loop). -/
def _extract_data_inner (localOffsetMinutes : ℤ) (envs : List ActivityEnv) : RunOutcome :=
  extract_data_go localOffsetMinutes envs []

/-- An activity the pipeline loop body logs and skips: its detail fetch ends
in the retry-exhausted `RuntimeError`, or its translation raises
`KeyError`. -/
def envSkipped (localOffsetMinutes : ℤ) (env : ActivityEnv) : Prop :=
  (∃ ep n, (get_raw_activity_data env.attempts).2 = FetchResult.runtimeError ep n)
    ∨ (∃ j, (get_raw_activity_data env.attempts).2 = FetchResult.ok j
        ∧ build_train_activity localOffsetMinutes env.sportType j
          = Except.error PyError.keyError)

/-- A skipped activity contributes nothing to the loop body. -/
theorem process_env_of_skipped (localOffsetMinutes : ℤ) (env : ActivityEnv)
    (h : envSkipped localOffsetMinutes env) :
    process_env localOffsetMinutes env = ProcessResult.skip := by
  rcases h with ⟨ep, n, hfetch⟩ | ⟨j, hfetch, hbuild⟩
  · simp [process_env, hfetch]
  · simp [process_env, hfetch, hbuild]

/-- Removing a skipped activity anywhere in the reference list leaves the
remainder of the run unchanged: the run proceeds with the next reference. -/
theorem extract_data_skips (localOffsetMinutes : ℤ) (env : ActivityEnv)
    (h : process_env localOffsetMinutes env = ProcessResult.skip) :
    ∀ (pre post : List ActivityEnv) (acc : List TrainActivity),
      extract_data_go localOffsetMinutes (pre ++ env :: post) acc
        = extract_data_go localOffsetMinutes (pre ++ post) acc := by
  intro pre
  induction pre with
  | nil =>
    intro post acc
    simp [extract_data_go, h]
  | cons p pre ih =>
    intro post acc
    simp only [List.cons_append, extract_data_go]
    cases process_env localOffsetMinutes p with
    | skip => exact ih post acc
    | crash e => rfl
    | keep ta => exact ih post _

/-- C3: a detail fetch failing on all 3 attempts (transport exception or the
non-null `data.summary` validity check) performs exactly 3 attempts with a
fixed 0.5-second sleep between consecutive attempts and raises the
retry-exhausted `RuntimeError` naming `ACTIVITY_DETAILS_URL` and the attempt
count `MAX_TRIES = 3`; the pipeline catches it and continues with the next
reference. -/
theorem fetch_exhausted_raises_and_pipeline_continues (attempts : ℕ → AttemptOutcome)
    (h : ∀ i < 3, attemptFails (attempts i)) :
    get_raw_activity_data attempts
      = ([RetryEvent.attempt 0, RetryEvent.sleep WAIT_BETWEEN_RETRIES,
          RetryEvent.attempt 1, RetryEvent.sleep WAIT_BETWEEN_RETRIES,
          RetryEvent.attempt 2],
         FetchResult.runtimeError ACTIVITY_DETAILS_URL MAX_TRIES)
    ∧ ∀ (localOffsetMinutes : ℤ) (sport : Int) (pre post : List ActivityEnv),
        _extract_data_inner localOffsetMinutes
            (pre ++ ActivityEnv.mk sport attempts :: post)
          = _extract_data_inner localOffsetMinutes (pre ++ post) := by
  have hfetch : get_raw_activity_data attempts
      = ([RetryEvent.attempt 0, RetryEvent.sleep WAIT_BETWEEN_RETRIES,
          RetryEvent.attempt 1, RetryEvent.sleep WAIT_BETWEEN_RETRIES,
          RetryEvent.attempt 2],
         FetchResult.runtimeError ACTIVITY_DETAILS_URL MAX_TRIES) := by
    rw [get_raw_activity_data, show MAX_TRIES = 2 + 1 from rfl,
      loop_step_fails attempts 0 2 (h 0 (by omega))]
    rw [show (2 : ℕ) = 1 + 1 from rfl, loop_step_fails attempts 1 1 (h 1 (by omega))]
    rw [show (1 : ℕ) = 0 + 1 from rfl, loop_step_fails attempts 2 0 (h 2 (by omega))]
    simp [getRawActivityDataLoop, MAX_TRIES]
  refine ⟨hfetch, ?_⟩
  intro localOffsetMinutes sport pre post
  exact extract_data_skips localOffsetMinutes _
    (process_env_of_skipped localOffsetMinutes _
      (Or.inl ⟨ACTIVITY_DETAILS_URL, MAX_TRIES, by rw [hfetch]⟩)) pre post []

/-- Witness for C3: every attempt raises a transport exception; the pipeline
run over just this activity completes with an empty collection. -/
theorem fetch_exhausted_witness :
    get_raw_activity_data (fun _ => AttemptOutcome.exn)
      = ([RetryEvent.attempt 0, RetryEvent.sleep WAIT_BETWEEN_RETRIES,
          RetryEvent.attempt 1, RetryEvent.sleep WAIT_BETWEEN_RETRIES,
          RetryEvent.attempt 2],
         FetchResult.runtimeError ACTIVITY_DETAILS_URL MAX_TRIES)
    ∧ _extract_data_inner 0 ([] ++ ActivityEnv.mk 100 (fun _ => AttemptOutcome.exn) :: [])
      = _extract_data_inner 0 ([] ++ []) :=
  ⟨(fetch_exhausted_raises_and_pipeline_continues (fun _ => AttemptOutcome.exn)
      (fun _ _ => Or.inl rfl)).1,
   (fetch_exhausted_raises_and_pipeline_continues (fun _ => AttemptOutcome.exn)
      (fun _ _ => Or.inl rfl)).2 0 100 [] []⟩

/-- A detail payload that passes the non-null `data.summary` validity check
but whose summary sub-object is empty, so that `Summary(**{})` fails
pydantic validation. -/
def missingSummaryFieldsPayload : JsonDict :=
  [("data", Json.obj [("summary", Json.obj []),
    ("frequencyList", Json.arr []), ("lapList", Json.arr [])])]

/-- C1 counterexample: an activity whose detail payload passes the fetch
validity check but whose `Summary` translation fails pydantic validation (a
`Summary` field missing from the summary sub-object) does not get logged and
skipped: `except KeyError` does not catch `ValidationError` (a `ValueError`),
so the run crashes instead of proceeding, contradicting the claim that the
run never fails due to individual activity errors. -/
theorem pipeline_crashes_on_validation_error_counterexample :
    _extract_data_inner 0
        [ActivityEnv.mk 100 (fun _ => AttemptOutcome.payload missingSummaryFieldsPayload)]
      = RunOutcome.crashed PyError.validationError := by
  rfl

/-- C1 (amended): the pipeline loop tolerates exactly the per-activity errors
its handlers name: a detail fetch ending in the retry-exhausted
`RuntimeError` (or any `requests` transport error, which the retry loop
already consumes) and a translation failing with `KeyError` (a missing
sub-key of the detail payload) are logged and skipped, and the run proceeds
with the next reference; a pydantic `ValidationError` during translation is
not caught and aborts the run. -/
theorem pipeline_skips_caught_errors (localOffsetMinutes : ℤ) (env : ActivityEnv)
    (h : envSkipped localOffsetMinutes env) (pre post : List ActivityEnv) :
    _extract_data_inner localOffsetMinutes (pre ++ env :: post)
      = _extract_data_inner localOffsetMinutes (pre ++ post) :=
  extract_data_skips localOffsetMinutes env
    (process_env_of_skipped localOffsetMinutes env h) pre post []

/-- A complete, well-typed summary sub-object carrying all 28 `Summary`
fields. -/
def exampleSummaryJson : Json :=
  Json.obj [("adjustedPace", Json.num 300), ("aerobicEffect", Json.num 3),
    ("aerobicEffectState", Json.num 1), ("anaerobicEffect", Json.num 1),
    ("anaerobicEffectState", Json.num 0), ("avgCadence", Json.num 170),
    ("avgHr", Json.num 150), ("avgMoveSpeed", Json.num 3), ("avgPace", Json.num 330),
    ("avgRunningEf", Json.num 60), ("avgSpeed", Json.num 3),
    ("avgStepLen", Json.num 110), ("calories", Json.num 500),
    ("currentVo2Max", Json.num 50), ("deviceSportMode", Json.num 100),
    ("distance", Json.num 10000), ("endTimestamp", Json.num 169000000000),
    ("maxCadence", Json.num 190), ("maxHr", Json.num 180), ("maxSpeed", Json.num 4),
    ("name", Json.str "Morning Run"), ("sportMode", Json.num 100),
    ("sportType", Json.num 100), ("startTimestamp", Json.num 168999990000),
    ("totalTime", Json.num 3600), ("trainType", Json.num 0),
    ("trainingLoad", Json.num 100), ("workoutTime", Json.num 3500)]

/-- A detail payload whose summary translates but whose `frequencyList` key
is absent, so translation raises `KeyError`. -/
def missingFrequencyListPayload : JsonDict :=
  [("data", Json.obj [("summary", exampleSummaryJson), ("lapList", Json.arr [])])]

/-- Witness for C1 (amended): an activity whose payload lacks
`frequencyList` (translation `KeyError`) is skipped and the run completes. -/
theorem pipeline_skips_caught_errors_witness :
    _extract_data_inner 0
        ([] ++ ActivityEnv.mk 904
          (fun _ => AttemptOutcome.payload missingFrequencyListPayload) :: [])
      = _extract_data_inner 0 ([] ++ []) :=
  pipeline_skips_caught_errors 0
    (ActivityEnv.mk 904 (fun _ => AttemptOutcome.payload missingFrequencyListPayload))
    (Or.inr ⟨missingFrequencyListPayload, rfl, rfl⟩) [] []

/-! ## File exporter (_export_activities_inner)

The download endpoint is modelled by a function from the activity reference
and file type to the optional `data.fileUrl` of its response (`none` models a
response without a `"data"` key, the vendor's silent unsupported-combination
signal).  The run is traced by the requests issued and files written. -/

/-- One listed activity reference, as consumed by the export loop. -/
structure ActivityRef where
  name : String
  startTime : Int
  labelId : String
  sportType : Int

/-- The file extension the `match file_type` block selects. -/
def fileExtension : ActivityFileType → String
  | .CSV => "csv"
  | .FIT => "fit"
  | .GPX => "gpx"
  | .KML => "kml"
  | .TCX => "tcx"

/-- The export filename
`{activity_start_time}_{activity_name}_{label_id}.{extension}`. -/
def exportFilename (a : ActivityRef) (file_type : ActivityFileType) : String :=
  toString a.startTime ++ "_" ++ a.name ++ "_" ++ a.labelId ++ "."
    ++ fileExtension file_type

/-- One observable event of the export loop. -/
inductive ExportEvent where
  /-- POST to `ACTIVITY_DOWNLOAD_URL` with `{labelId, fileType, sportType}`. -/
  | downloadQuery (labelId : String) (fileTypeVal sportType : Int) : ExportEvent
  /-- Streaming GET of the returned `data.fileUrl`. -/
  | fetchFile (url : String) : ExportEvent
  /-- `write_bytes` to this filename in the output directory. -/
  | writeFile (filename : String) : ExportEvent
  deriving DecidableEq

/-- The download-and-write tail of the export loop body, reached when the
capability check did not skip: issue the download query; without a `"data"`
key, log at info level and skip; otherwise stream `data.fileUrl` to the
export filename. -/
def export_download (dl : ActivityRef → ActivityFileType → Option String)
    (file_type : ActivityFileType) (a : ActivityRef) : List ExportEvent :=
  let req := ExportEvent.downloadQuery a.labelId file_type.val a.sportType
  match dl a file_type with
  | none => [req]
  | some url => [req, ExportEvent.fetchFile url,
      ExportEvent.writeFile (exportFilename a file_type)]

/-- The export loop body for one activity: `ActivityType(sport_type_raw)` is
attempted; an unknown sport type is logged and the export proceeds anyway; a
known sport type failing `supports_export(file_type)` is skipped up front. -/
def export_activity (dl : ActivityRef → ActivityFileType → Option String)
    (file_type : ActivityFileType) (a : ActivityRef) : List ExportEvent :=
  match ActivityType.fromVal a.sportType with
  | some sport_type =>
    if sport_type.supports_export file_type then export_download dl file_type a
    else []
  | none => export_download dl file_type a

/-- data/__init__.py `CorosDataExtractor._export_activities_inner`: the loop
over the listed activities, concatenating each activity's events. -/
def _export_activities_inner (dl : ActivityRef → ActivityFileType → Option String)
    (file_type : ActivityFileType) (activities : List ActivityRef) : List ExportEvent :=
  (activities.map (export_activity dl file_type)).flatten

/-- C8: an activity whose known sport type does not support the requested
export file type is skipped up front: no download request is issued and no
file is written for it, and the export run over the surrounding activities is
exactly the run without it — it continues with the next activity.  (The
capability predicate admits every sport type for CSV, TCX and FIT, and
requires a position-recording sport type for GPX and KML.) -/
theorem export_skips_unsupported (dl : ActivityRef → ActivityFileType → Option String)
    (file_type : ActivityFileType) (a : ActivityRef) (sport_type : ActivityType)
    (hknown : ActivityType.fromVal a.sportType = some sport_type)
    (hunsupported : sport_type.supports_export file_type = false) :
    export_activity dl file_type a = []
    ∧ ∀ pre post : List ActivityRef,
        _export_activities_inner dl file_type (pre ++ a :: post)
          = _export_activities_inner dl file_type (pre ++ post) := by
  have hskip : export_activity dl file_type a = [] := by
    simp [export_activity, hknown, hunsupported]
  refine ⟨hskip, ?_⟩
  intro pre post
  simp [_export_activities_inner, hskip]

/-- The capability predicate admits every sport type for the non-positional
formats CSV, TCX and FIT, and for GPX and KML admits exactly the
position-recording sport types. -/
theorem supports_export_characterization (sport_type : ActivityType)
    (file_type : ActivityFileType) :
    sport_type.supports_export file_type
      = (decide (file_type = ActivityFileType.CSV ∨ file_type = ActivityFileType.TCX
            ∨ file_type = ActivityFileType.FIT)
         || ACTIVITY_TYPE_SUPPORTS_POSITIONAL_DATA.contains sport_type.val) := by
  cases file_type <;> cases sport_type <;> rfl

/-- Witness for C8: a GPX export of an indoor-run activity (no positional
data) issues no request and writes no file, and the run over a surrounding
walk and road-bike activity equals the run without it. -/
theorem export_skips_unsupported_witness :
    export_activity (fun _ _ => some "https://example/download")
        ActivityFileType.GPX (ActivityRef.mk "treadmill" 1690000000 "L1" 101) = []
    ∧ ∀ pre post : List ActivityRef,
        _export_activities_inner (fun _ _ => some "https://example/download")
            ActivityFileType.GPX
            (pre ++ ActivityRef.mk "treadmill" 1690000000 "L1" 101 :: post)
          = _export_activities_inner (fun _ _ => some "https://example/download")
            ActivityFileType.GPX (pre ++ post) :=
  export_skips_unsupported (fun _ _ => some "https://example/download")
    ActivityFileType.GPX (ActivityRef.mk "treadmill" 1690000000 "L1" 101)
    ActivityType.INDOOR_RUN rfl rfl

end Coros
